import Mathlib

/- Shallow embedding of the Resume-Optimizer matching and scoring pipeline:
   src/utils/resume_analyzer.py (feature extraction and hybrid scoring),
   src/utils/embeddings.py (vector-index job matcher), and the match
   pipeline of src/app.py (show_job_results).  Machine floats are modelled
   by exact rationals; Python strings by Lean strings over their character
   lists. -/

namespace ResumeOpt

/-- ASCII lowercasing of one character (Python str.lower on the ASCII data used here). -/
def lowChar (c : Char) : Char :=
  if 65 ≤ c.toNat ∧ c.toNat ≤ 90 then Char.ofNat (c.toNat + 32) else c

/-- Python str.lower. -/
def lowerS (s : String) : String := ⟨s.data.map lowChar⟩

/-- Containment of one character list in another as a contiguous run
    (Python substring test, on character lists). -/
def infixAt : List Char → List Char → Bool
  | n, [] => n.isEmpty
  | n, c :: t => n.isPrefixOf (c :: t) || infixAt n t

/-- Python `needle in hay` substring containment on strings. -/
def strIn (needle hay : String) : Bool := infixAt needle.data hay.data

/-- The apostrophe character, kept out of string literals. -/
def apos : String := ⟨[Char.ofNat 39]⟩

/-- Decimal digit test on a character. -/
def isDigitC (c : Char) : Bool := decide (48 ≤ c.toNat) && decide (c.toNat ≤ 57)

/-- Numeric value of a digit character. -/
def digitVal (c : Char) : Nat := c.toNat - 48

/-- Consume a maximal run of leading digits, extending the accumulator;
    return the value and the rest of the input. -/
def grabDigits : List Char → Nat → Nat × List Char
  | [], acc => (acc, [])
  | c :: t, acc => if isDigitC c then grabDigits t (acc * 10 + digitVal c) else (acc, c :: t)

/-- Match a nonempty digit run at the head of the input (regex `\d+`). -/
def digitsStart : List Char → Option (Nat × List Char)
  | [] => none
  | c :: t => if isDigitC c then some (grabDigits t (digitVal c)) else none

/-- First integer appearing in the list, as in `re.findall(r'\d+', s)[0]`. -/
def firstNatAux : List Char → Option Nat
  | [] => none
  | c :: t => if isDigitC c then some (grabDigits t (digitVal c)).1 else firstNatAux t

/-- First integer appearing in a string, if any. -/
def firstNat (s : String) : Option Nat := firstNatAux s.data

/-- Python min on rationals, written so that the kernel can evaluate it. -/
def minQ (a b : ℚ) : ℚ := if a ≤ b then a else b

/-- Python max on rationals, written so that the kernel can evaluate it. -/
def maxQ (a b : ℚ) : ℚ := if a ≤ b then b else a

theorem minQ_eq (a b : ℚ) : minQ a b = min a b := (min_def a b).symm

theorem maxQ_eq (a b : ℚ) : maxQ a b = max a b := (max_def a b).symm

/-- A job posting record (the fields of the catalog entries that the
    scoring code reads). -/
structure Job where
  id : Nat
  title : String
  requirements : String
  experience : String
  education_required : String
  projects_required : String
deriving DecidableEq

/-- The structured resume profile produced by ResumeAnalyzer.parse_resume
    (the fields read by the scoring code). -/
structure ResumeData where
  skills : List String
  education_level : String
  years_of_experience : ℚ
  projects : List (String × String)
deriving DecidableEq

/-- The six named sub-scores of the smart-score breakdown. -/
structure SmartBreakdown where
  exact_skills : ℚ
  related_skills : ℚ
  experience : ℚ
  education : ℚ
  projects : ℚ
  semantic : ℚ
deriving DecidableEq

/-- The weights record returned alongside the smart-score breakdown. -/
structure SmartWeights where
  skills_total : ℚ
  experience : ℚ
  semantic : ℚ
  education : ℚ
  projects : ℚ
deriving DecidableEq

/-- The full return value of calculate_smart_score. -/
structure SmartScoreResult where
  final_score : ℚ
  breakdown : SmartBreakdown
  weights : SmartWeights
  experience_gap : ℚ
  education_sufficient : Bool
  exact_matches : Nat
  related_matches : Nat
deriving DecidableEq

/-- The education tier dictionary of calculate_smart_score and
    calculate_detailed_breakdown. -/
def edu_hierarchy : List (String × Nat) :=
  [("phd", 5), ("ph.d", 5), ("doctorate", 5),
   ("masters", 4), ("master" ++ apos ++ "s", 4), ("ms", 4), ("m.s", 4), ("mba", 4),
   ("bachelor", 3), ("bachelor" ++ apos ++ "s", 3), ("bs", 3), ("b.s", 3), ("ba", 3),
   ("associate", 2), ("diploma", 1)]

/-- Highest tier whose keyword occurs as a substring of the (already
    lowercased) text; 0 when none occurs. -/
def levelOf (s : String) : Nat :=
  edu_hierarchy.foldl (fun acc kv => if strIn kv.1 s then max acc kv.2 else acc) 0

/-- The fixed synonym table of calculate_smart_score. -/
def skill_synonyms : List (String × List String) :=
  [("python", ["py", "python3"]),
   ("javascript", ["js", "typescript", "ts"]),
   ("machine learning", ["ml", "deep learning", "dl", "ai"]),
   ("react", ["reactjs", "react.js"]),
   ("node", ["nodejs", "node.js"]),
   ("tensorflow", ["tf"]),
   ("pytorch", ["torch"]),
   ("kubernetes", ["k8s"])]

/-- The exact-skills match count of calculate_smart_score: how many of the
    candidate's lowercased skills occur as substrings of the lowercased job
    requirements. -/
def exact_matches_count (resume_data : ResumeData) (job : Job) : Nat :=
  (resume_data.skills.map lowerS).countP (fun s => strIn s (lowerS job.requirements))

/-- The related-skills match count of calculate_smart_score: candidate skills
    matching a synonym-table key (or one of its synonyms) whose key occurs in
    the job requirements. -/
def related_matches_count (resume_data : ResumeData) (job : Job) : Nat :=
  (resume_data.skills.map lowerS).countP (fun s =>
    skill_synonyms.any (fun kv => (s == kv.1 || kv.2.contains s) && strIn kv.1 (lowerS job.requirements)))

/-- The skill-list size used as normalizer (1 when the list is empty). -/
def total_resume_skills (resume_data : ResumeData) : Nat :=
  if (resume_data.skills.map lowerS).isEmpty then 1 else (resume_data.skills.map lowerS).length

/-- Required years parsed from the job's experience string: the first integer
    found, default 0 (`float(re.findall(r'\d+', s)[0]) if ... else 0`). -/
def required_years_of (job : Job) : ℚ :=
  match firstNat job.experience with
  | some n => (n : ℚ)
  | none => 0

/-- The candidate's education tier detected by calculate_smart_score. -/
def candidate_level_of (resume_data : ResumeData) : Nat :=
  levelOf (lowerS resume_data.education_level)

/-- The job's required education tier detected by calculate_smart_score. -/
def required_level_of (job : Job) : Nat :=
  levelOf (lowerS job.education_required)

/-- Whether the job's projects_required text mentions portfolio or projects. -/
def projects_mentioned_of (job : Job) : Bool :=
  strIn "portfolio" (lowerS job.projects_required) || strIn "projects" (lowerS job.projects_required)

/-- ResumeAnalyzer.calculate_smart_score: the hybrid scoring algorithm,
    translated clause by clause from resume_analyzer.py lines 255-440. -/
def calculate_smart_score (resume_data : ResumeData) (job : Job)
    (ml_semantic_score : ℚ) : SmartScoreResult :=
  let exact_matches := exact_matches_count resume_data job
  let exact_skills_score : ℚ :=
    minQ ((exact_matches : ℚ) / maxQ ((total_resume_skills resume_data : ℚ) * 0.5) 1) 1.0
  let related_matches := related_matches_count resume_data job
  let related_skills_score : ℚ :=
    minQ ((related_matches : ℚ) / maxQ ((total_resume_skills resume_data : ℚ) * 0.3) 1) 1.0
  let required_years := required_years_of job
  let candidate_years := resume_data.years_of_experience
  let experience_score_raw : ℚ :=
    if required_years = 0 then 0.8
    else if candidate_years ≥ required_years then 1.0
    else if candidate_years ≥ required_years * 0.7 then 0.85
    else if candidate_years ≥ required_years * 0.5 then 0.65
    else candidate_years / maxQ required_years 1
  let experience_score := minQ experience_score_raw 1.0
  let candidate_level := candidate_level_of resume_data
  let required_level := required_level_of job
  let education_score : ℚ :=
    if required_level = 0 then 0.8
    else if candidate_level ≥ required_level then 1.0
    else if candidate_level = required_level - 1 then 0.85
    else 0.6
  let projects := resume_data.projects
  let projects_mentioned := projects_mentioned_of job
  let projects_score : ℚ :=
    if projects_mentioned then
      (if projects.isEmpty then 0.4 else minQ ((projects.length : ℚ) / 2.0) 1.0)
    else 0.7
  let semantic_score := ml_semantic_score
  let base_score :=
    exact_skills_score * 0.25 +
    related_skills_score * 0.15 +
    experience_score * 0.40 +
    semantic_score * 0.20
  let education_weight : ℚ := if required_level > 0 then 0.05 else 0
  let projects_weight : ℚ := if projects_mentioned then 0.05 else 0
  let conditional_score := education_score * education_weight + projects_score * projects_weight
  let final_score := minQ (base_score + conditional_score) 1.0
  { final_score := final_score
    breakdown :=
      { exact_skills := exact_skills_score
        related_skills := related_skills_score
        experience := experience_score
        education := education_score
        projects := projects_score
        semantic := semantic_score }
    weights :=
      { skills_total := 0.40
        experience := 0.40
        semantic := 0.20
        education := education_weight
        projects := projects_weight }
    experience_gap := maxQ 0 (required_years - candidate_years)
    education_sufficient := if required_level > 0 then decide (candidate_level ≥ required_level) else true
    exact_matches := exact_matches
    related_matches := related_matches }

/-- The five nested records returned by calculate_detailed_breakdown,
    flattened to one record (only fields actually produced by the code). -/
structure DetailedBreakdown where
  overall : ℚ
  skills_score : ℚ
  skills_matched : Nat
  skills_total : Nat
  skills_missing : List String
  education_score : ℚ
  education_candidate_level : Nat
  education_required_level : Nat
  experience_score : ℚ
  experience_candidate_years : ℚ
  experience_required_years : ℚ
  experience_gap : ℚ
  projects_score : ℚ
  projects_count : Nat
deriving DecidableEq

/-- The expanded skill keyword database of ResumeAnalyzer.__init__. -/
def skill_keywords : List String :=
  ["Python", "Java", "JavaScript", "TypeScript", "C++", "C#", "Ruby", "Go", "Rust", "PHP",
   "Swift", "Kotlin", "R", "Scala", "Perl", "MATLAB", "C", "Objective-C",
   "React", "Angular", "Vue", "Vue.js", "Node.js", "Django", "Flask", "Spring", "Express",
   "HTML", "CSS", "SASS", "LESS", "Bootstrap", "Tailwind", "REST", "GraphQL", "WebSocket",
   "Next.js", "Nuxt.js", "jQuery", "Redux", "MobX",
   "SQL", "MySQL", "PostgreSQL", "MongoDB", "Redis", "Cassandra", "DynamoDB",
   "Oracle", "SQLite", "ElasticSearch", "Neo4j", "CouchDB", "MariaDB",
   "AWS", "Azure", "GCP", "Google Cloud", "Docker", "Kubernetes", "K8s", "Jenkins",
   "GitLab", "CI/CD", "Terraform", "Ansible", "Chef", "Puppet", "Linux", "Git",
   "GitHub", "Bitbucket", "CircleCI", "Travis CI",
   "Machine Learning", "Deep Learning", "TensorFlow", "PyTorch", "Keras", "scikit-learn",
   "NLP", "Natural Language Processing", "Computer Vision", "Neural Networks",
   "Data Science", "Pandas", "NumPy", "Spark", "Hadoop", "Tableau", "Power BI",
   "MLOps", "AI", "Artificial Intelligence", "Data Mining", "Statistical Analysis",
   "iOS", "Android", "React Native", "Flutter", "SwiftUI", "UIKit",
   "Testing", "Unit Testing", "Integration Testing", "Jest", "Mocha", "Pytest",
   "Selenium", "Cypress", "JUnit", "TestNG",
   "Agile", "Scrum", "Microservices", "API", "RESTful API", "Serverless",
   "Blockchain", "Solidity", "Web3"]

/-- ResumeAnalyzer.identify_missing_skills: vocabulary skills occurring in
    the job requirements but not in the space-joined candidate skill list,
    truncated to the first 5. -/
def identify_missing_skills (resume_data : ResumeData) (job : Job) : List String :=
  let job_requirements := lowerS job.requirements
  let joined := String.intercalate " " (resume_data.skills.map lowerS)
  (skill_keywords.filter (fun skill =>
    strIn (lowerS skill) job_requirements && !(strIn (lowerS skill) joined))).take 5

/-- ResumeAnalyzer.calculate_detailed_breakdown: the secondary 4-category
    breakdown (resume_analyzer.py lines 442-540). -/
def calculate_detailed_breakdown (resume_data : ResumeData) (job : Job) : DetailedBreakdown :=
  let skills_matched := exact_matches_count resume_data job
  let skills_score : ℚ :=
    minQ ((skills_matched : ℚ) / maxQ ((total_resume_skills resume_data : ℚ) * 0.5) 1) 1.0
  let candidate_level := candidate_level_of resume_data
  let required_level := required_level_of job
  let education_score : ℚ :=
    if required_level = 0 then 0.8
    else if candidate_level ≥ required_level then 1.0
    else if candidate_level = required_level - 1 then 0.8
    else 0.5
  let required_years := required_years_of job
  let candidate_years := resume_data.years_of_experience
  let experience_score_raw : ℚ :=
    if required_years = 0 then 0.8
    else if candidate_years ≥ required_years then 1.0
    else if candidate_years ≥ required_years * 0.7 then 0.8
    else candidate_years / maxQ required_years 1
  let experience_score := minQ experience_score_raw 1.0
  let projects := resume_data.projects
  let projects_score : ℚ :=
    if projects.isEmpty then 0.5 else minQ ((projects.length : ℚ) / 2.0) 1.0
  let overall_score :=
    skills_score * 0.40 +
    education_score * 0.25 +
    experience_score * 0.25 +
    projects_score * 0.10
  { overall := overall_score
    skills_score := skills_score
    skills_matched := skills_matched
    skills_total := total_resume_skills resume_data
    skills_missing := identify_missing_skills resume_data job
    education_score := education_score
    education_candidate_level := candidate_level
    education_required_level := required_level
    experience_score := experience_score
    experience_candidate_years := candidate_years
    experience_required_years := required_years
    experience_gap := maxQ 0 (required_years - candidate_years)
    projects_score := projects_score
    projects_count := projects.length }

/-- Python regex word-character class `\w` on the ASCII data used here. -/
def isWordC (c : Char) : Bool :=
  (decide (97 ≤ c.toNat) && decide (c.toNat ≤ 122)) ||
  (decide (65 ≤ c.toNat) && decide (c.toNat ≤ 90)) ||
  isDigitC c || decide (c.toNat = 95)

/-- Word-character test on an optional character; the edge of the text
    counts as a non-word character. -/
def isWordO : Option Char → Bool
  | none => false
  | some c => isWordC c

/-- The regex word-boundary condition between two adjacent positions. -/
def boundB (a b : Option Char) : Bool := isWordO a != isWordO b

/-- Does the pattern occur right here, with `\b` on both sides?
    `prev` is the character just before this position. -/
def wbHere (prev : Option Char) (needle hay : List Char) : Bool :=
  needle.isPrefixOf hay && boundB prev needle.head? &&
    boundB needle.getLast? ((hay.drop needle.length).head?)

/-- Search for a `\b needle \b` occurrence anywhere in the text
    (re.search with the word-boundary pattern of extract_skills). -/
def wbSearchAux (needle : List Char) : Option Char → List Char → Bool
  | prev, [] => wbHere prev needle []
  | prev, c :: t => wbHere prev needle (c :: t) || wbSearchAux needle (some c) t

/-- Whole-word occurrence of a (lowercased) skill in the (lowercased) text. -/
def wbSearch (needle hay : List Char) : Bool := wbSearchAux needle none hay

/-- The order-preserving case-insensitive dedup loop of extract_skills;
    `seen` is the set of lowercased names already emitted. -/
def dedupCI (seen : List String) : List String → List String
  | [] => []
  | s :: rest =>
    if seen.contains (lowerS s) then dedupCI seen rest
    else s :: dedupCI (lowerS s :: seen) rest

/-- ResumeAnalyzer.extract_skills (resume_analyzer.py lines 67-87):
    keyword matching with word boundaries over the lowercased text, then
    case-insensitive dedup preserving first-seen casing. -/
def extract_skills (resume_text : String) : List String :=
  let text_lower := resume_text.data.map lowChar
  let found_skills := skill_keywords.filter (fun skill =>
    wbSearch (skill.data.map lowChar) text_lower)
  dedupCI [] found_skills

/-- Python regex whitespace class `\s` on ASCII data. -/
def isSpaceC (c : Char) : Bool :=
  decide (c.toNat = 32) || decide (c.toNat = 9) || decide (c.toNat = 10) ||
  decide (c.toNat = 13) || decide (c.toNat = 12) || decide (c.toNat = 11)

/-- Match a literal character sequence, returning the rest of the input. -/
def litP : List Char → List Char → Option (List Char)
  | [], l => some l
  | _ :: _, [] => none
  | p :: ps, c :: cs => if p = c then litP ps cs else none

/-- Greedily skip whitespace (regex `\s*`). -/
def skipWSStar : List Char → List Char
  | [] => []
  | c :: cs => if isSpaceC c then skipWSStar cs else c :: cs

/-- Require at least one whitespace character, then skip the rest (regex `\s+`). -/
def skipWSPlus : List Char → Option (List Char)
  | [] => none
  | c :: cs => if isSpaceC c then some (skipWSStar cs) else none

/-- Consume an optional single character (regex `c?`). -/
def optCharP (ch : Char) : List Char → List Char
  | [] => []
  | c :: cs => if c = ch then cs else c :: cs

/-- Regex alternation `(?:experience|exp)`, leftmost alternative first. -/
def expTail (l : List Char) : Option (List Char) :=
  match litP "experience".data l with
  | some r => some r
  | none => litP "exp".data l

/-- Shared tail of the first two experience patterns:
    `(?:\s+of)?\s+(?:experience|exp)`, with the optional group tried first
    as the regex engine does. -/
def ofExpTail (l : List Char) : Option (List Char) :=
  let branchWithOf : Option (List Char) :=
    match skipWSPlus l with
    | none => none
    | some l1 =>
      match litP "of".data l1 with
      | none => none
      | some l2 =>
        match skipWSPlus l2 with
        | none => none
        | some l3 => expTail l3
  match branchWithOf with
  | some r => some r
  | none =>
    match skipWSPlus l with
    | none => none
    | some l1 => expTail l1

/-- Pattern `(\d+)\+?\s*years?(?:\s+of)?\s+(?:experience|exp)` at one position. -/
def matchP1 (l : List Char) : Option (Nat × List Char) :=
  match digitsStart l with
  | none => none
  | some (n, l1) =>
    let l2 := skipWSStar (optCharP (Char.ofNat 43) l1)
    match litP "year".data l2 with
    | none => none
    | some l3 =>
      match ofExpTail (optCharP 's' l3) with
      | none => none
      | some r => some (n, r)

/-- Pattern `(\d+)\+?\s*yrs?(?:\s+of)?\s+(?:experience|exp)` at one position. -/
def matchP2 (l : List Char) : Option (Nat × List Char) :=
  match digitsStart l with
  | none => none
  | some (n, l1) =>
    let l2 := skipWSStar (optCharP (Char.ofNat 43) l1)
    match litP "yr".data l2 with
    | none => none
    | some l3 =>
      match ofExpTail (optCharP 's' l3) with
      | none => none
      | some r => some (n, r)

/-- Character class `[:\s]`. -/
def isColonWS (c : Char) : Bool := decide (c.toNat = 58) || isSpaceC c

/-- Greedily skip `[:\s]*`. -/
def skipColonWSStar : List Char → List Char
  | [] => []
  | c :: cs => if isColonWS c then skipColonWSStar cs else c :: cs

/-- Regex `[:\s]+`. -/
def skipColonWSPlus : List Char → Option (List Char)
  | [] => none
  | c :: cs => if isColonWS c then some (skipColonWSStar cs) else none

/-- Pattern `experience[:\s]+(\d+)\+?\s*years?` at one position. -/
def matchP3 (l : List Char) : Option (Nat × List Char) :=
  match litP "experience".data l with
  | none => none
  | some l1 =>
    match skipColonWSPlus l1 with
    | none => none
    | some l2 =>
      match digitsStart l2 with
      | none => none
      | some (n, l3) =>
        let l4 := skipWSStar (optCharP (Char.ofNat 43) l3)
        match litP "year".data l4 with
        | none => none
        | some l5 => some (n, optCharP 's' l5)

/-- Pattern `(\d+)\+?\s*years?\s+in` at one position. -/
def matchP4 (l : List Char) : Option (Nat × List Char) :=
  match digitsStart l with
  | none => none
  | some (n, l1) =>
    let l2 := skipWSStar (optCharP (Char.ofNat 43) l1)
    match litP "year".data l2 with
    | none => none
    | some l3 =>
      match skipWSPlus (optCharP 's' l3) with
      | none => none
      | some l4 =>
        match litP "in".data l4 with
        | none => none
        | some r => some (n, r)

/-- Regex `20\d{2}`: a four-digit year starting with 20. -/
def year4 : List Char → Option (Nat × List Char)
  | c1 :: c2 :: c3 :: c4 :: rest =>
    if c1 = '2' ∧ c2 = '0' ∧ isDigitC c3 ∧ isDigitC c4 then
      some (2000 + 10 * digitVal c3 + digitVal c4, rest)
    else none
  | _ => none

/-- Pattern `(20\d{2})\s*[-–]\s*(20\d{2}|present|current)` at one position,
    with present/current already resolved to the code's fixed reference
    year 2024. -/
def matchDate (l : List Char) : Option ((Nat × Nat) × List Char) :=
  match year4 l with
  | none => none
  | some (s, l1) =>
    match skipWSStar l1 with
    | [] => none
    | d :: l2 =>
      if d = Char.ofNat 45 ∨ d = Char.ofNat 8211 then
        let l3 := skipWSStar l2
        match year4 l3 with
        | some (e, r) => some ((s, e), r)
        | none =>
          match litP "present".data l3 with
          | some r => some ((s, 2024), r)
          | none =>
            match litP "current".data l3 with
            | some r => some ((s, 2024), r)
            | none => none
      else none

/-- re.findall scanning loop: leftmost non-overlapping matches, resuming
    after each match; every matcher used here consumes at least one
    character on success, so the fuel bound `length + 1` is never hit. -/
def scanAll {α : Type} (M : List Char → Option (α × List Char)) : Nat → List Char → List α
  | 0, _ => []
  | _ + 1, [] => []
  | fuel + 1, c :: cs =>
    match M (c :: cs) with
    | some (a, rest) => a :: scanAll M fuel rest
    | none => scanAll M fuel cs

/-- All matches of one pattern in a character list. -/
def findall {α : Type} (M : List Char → Option (α × List Char)) (l : List Char) : List α :=
  scanAll M (l.length + 1) l

/-- The captured numbers of the four experience_patterns, in pattern order
    (the four findall loops of extract_years_of_experience). -/
def experience_phrase_matches (text : String) : List Nat :=
  let l := text.data.map lowChar
  findall matchP1 l ++ findall matchP2 l ++ findall matchP3 l ++ findall matchP4 l

/-- The (start, resolved end) year pairs of the date-range pattern. -/
def date_range_matches (text : String) : List (Nat × Nat) :=
  findall matchDate (text.data.map lowChar)

/-- The `years` list accumulated by extract_years_of_experience: phrase
    numbers first, then the derived durations end - start. -/
def years_found (text : String) : List ℚ :=
  (experience_phrase_matches text).map (fun n : ℕ => (n : ℚ)) ++
  (date_range_matches text).map (fun p => (p.2 : ℚ) - (p.1 : ℚ))

/-- ResumeAnalyzer.extract_years_of_experience (resume_analyzer.py lines
    149-171): the maximum of all values found, or the 2.0 default. -/
def extract_years_of_experience (text : String) : ℚ :=
  match years_found text with
  | [] => 2.0
  | y :: ys => ys.foldl maxQ y

/-- The query profile dict built by app.py for find_matching_jobs. -/
structure QueryProfile where
  title : String
  skills : String
  experience : String
deriving DecidableEq

/-- JobMatcher state (embeddings.py): the stored job list, and the FAISS
    index when built.  The built index is abstracted as the search function
    the encoder and faiss provide: (profile, k) to (row index, L2 distance)
    pairs.  `index = none` models `self.index is None`. -/
structure JobMatcher where
  index : Option (QueryProfile → Nat → List (Nat × ℚ))
  jobs : List Job

/-- JobMatcher.find_matching_jobs (embeddings.py lines 65-87): guard, then
    search with k capped at the job count, keep in-range rows, and convert
    each distance d to the similarity 1 / (1 + d). -/
def find_matching_jobs (m : JobMatcher) (profile : QueryProfile) (top_k : Nat) :
    Except String (List (Job × ℚ)) :=
  match m.index with
  | none => .error "Index not built. Call build_job_index() first."
  | some search =>
    if m.jobs.isEmpty then .error "Index not built. Call build_job_index() first."
    else
      .ok ((search profile (min top_k m.jobs.length)).filterMap (fun p =>
        if h : p.1 < m.jobs.length then some (m.jobs.get ⟨p.1, h⟩, 1 / (1 + p.2)) else none))

/-- The role filter of show_job_results: the job title contains some
    selected role, case-insensitively. -/
def titleMatchesRoles (selected_roles : List String) (job : Job) : Bool :=
  selected_roles.any (fun role => strIn (lowerS role) (lowerS job.title))

/-- The per-job semantic score lookup of show_job_results: the first ml
    match with this job's id, defaulting to 0.5. -/
def semantic_score_for (ml_matches : List (Nat × ℚ)) (job : Job) : ℚ :=
  match ml_matches.find? (fun p => p.1 == job.id) with
  | some p => p.2
  | none => 0.5

/-- The matching core of show_job_results (app.py lines 386-442): filter
    the catalog by selected roles, score each filtered job with the smart
    score at its semantic score, and sort descending by final score
    (stable, as list.sort with reverse=True is).  ml_matches stands for
    the find_matching_jobs result, which the loop recomputes identically
    for every job. -/
def show_job_results (jobs : List Job) (selected_roles : List String)
    (resume_data : ResumeData) (ml_matches : List (Nat × ℚ)) : List (Job × ℚ) :=
  let filtered_jobs := jobs.filter (titleMatchesRoles selected_roles)
  let scored := filtered_jobs.map (fun job =>
    (job, (calculate_smart_score resume_data job (semantic_score_for ml_matches job)).final_score))
  scored.mergeSort (fun a b => decide (b.2 ≤ a.2))

theorem minQ_nonneg {a b : ℚ} (ha : 0 ≤ a) (hb : 0 ≤ b) : 0 ≤ minQ a b := by
  rw [minQ_eq]; exact le_min ha hb

theorem minQ_le_right (a b : ℚ) : minQ a b ≤ b := by
  rw [minQ_eq]; exact min_le_right a b

theorem one_le_maxQ_right (a : ℚ) : (1 : ℚ) ≤ maxQ a 1 := by
  rw [maxQ_eq]; exact le_max_right a 1

theorem maxQ_denom_nonneg (a : ℚ) : (0 : ℚ) ≤ maxQ a 1 :=
  le_trans zero_le_one (one_le_maxQ_right a)

theorem smart_exact_skills_bounds (r : ResumeData) (j : Job) (s : ℚ) :
    0 ≤ (calculate_smart_score r j s).breakdown.exact_skills ∧
      (calculate_smart_score r j s).breakdown.exact_skills ≤ 1 := by
  simp only [calculate_smart_score]
  refine ⟨minQ_nonneg (div_nonneg (Nat.cast_nonneg _) (maxQ_denom_nonneg _)) (by norm_num), ?_⟩
  exact le_trans (minQ_le_right _ _) (by norm_num)

theorem smart_related_skills_bounds (r : ResumeData) (j : Job) (s : ℚ) :
    0 ≤ (calculate_smart_score r j s).breakdown.related_skills ∧
      (calculate_smart_score r j s).breakdown.related_skills ≤ 1 := by
  simp only [calculate_smart_score]
  refine ⟨minQ_nonneg (div_nonneg (Nat.cast_nonneg _) (maxQ_denom_nonneg _)) (by norm_num), ?_⟩
  exact le_trans (minQ_le_right _ _) (by norm_num)

theorem smart_experience_bounds (r : ResumeData) (j : Job) (s : ℚ)
    (hy : 0 ≤ r.years_of_experience) :
    0 ≤ (calculate_smart_score r j s).breakdown.experience ∧
      (calculate_smart_score r j s).breakdown.experience ≤ 1 := by
  simp only [calculate_smart_score]
  refine ⟨minQ_nonneg ?_ (by norm_num), le_trans (minQ_le_right _ _) (by norm_num)⟩
  split_ifs with h1 h2 h3 h4
  · norm_num
  · norm_num
  · norm_num
  · norm_num
  · exact div_nonneg hy (maxQ_denom_nonneg _)

theorem smart_education_bounds (r : ResumeData) (j : Job) (s : ℚ) :
    0 ≤ (calculate_smart_score r j s).breakdown.education ∧
      (calculate_smart_score r j s).breakdown.education ≤ 1 := by
  simp only [calculate_smart_score]
  split_ifs <;> norm_num

theorem smart_projects_bounds (r : ResumeData) (j : Job) (s : ℚ) :
    0 ≤ (calculate_smart_score r j s).breakdown.projects ∧
      (calculate_smart_score r j s).breakdown.projects ≤ 1 := by
  simp only [calculate_smart_score]
  split_ifs with h1 h2
  · norm_num
  · refine ⟨minQ_nonneg (by positivity) (by norm_num), le_trans (minQ_le_right _ _) (by norm_num)⟩
  · norm_num

theorem smart_semantic_eq (r : ResumeData) (j : Job) (s : ℚ) :
    (calculate_smart_score r j s).breakdown.semantic = s := rfl

theorem smart_weights_nonneg (r : ResumeData) (j : Job) (s : ℚ) :
    0 ≤ (calculate_smart_score r j s).weights.education ∧
      0 ≤ (calculate_smart_score r j s).weights.projects := by
  simp only [calculate_smart_score]
  constructor <;> (split_ifs <;> norm_num)

/-- final_score reassembled from the exposed breakdown and weights
    (definitional: the code builds it from exactly these subterms). -/
theorem smart_final_spec (r : ResumeData) (j : Job) (s : ℚ) :
    (calculate_smart_score r j s).final_score =
      minQ ((calculate_smart_score r j s).breakdown.exact_skills * 0.25 +
            (calculate_smart_score r j s).breakdown.related_skills * 0.15 +
            (calculate_smart_score r j s).breakdown.experience * 0.40 +
            (calculate_smart_score r j s).breakdown.semantic * 0.20 +
            ((calculate_smart_score r j s).breakdown.education *
               (calculate_smart_score r j s).weights.education +
             (calculate_smart_score r j s).breakdown.projects *
               (calculate_smart_score r j s).weights.projects)) 1.0 := rfl

theorem smart_final_bounds (r : ResumeData) (j : Job) (s : ℚ)
    (hy : 0 ≤ r.years_of_experience) (hs0 : 0 ≤ s) :
    0 ≤ (calculate_smart_score r j s).final_score ∧
      (calculate_smart_score r j s).final_score ≤ 1 := by
  rw [smart_final_spec]
  refine ⟨minQ_nonneg ?_ (by norm_num), le_trans (minQ_le_right _ _) (by norm_num)⟩
  have h1 := (smart_exact_skills_bounds r j s).1
  have h2 := (smart_related_skills_bounds r j s).1
  have h3 := (smart_experience_bounds r j s hy).1
  have h4 : 0 ≤ (calculate_smart_score r j s).breakdown.semantic := by
    rw [smart_semantic_eq]; exact hs0
  have h5 := (smart_education_bounds r j s).1
  have h6 := (smart_projects_bounds r j s).1
  have h7 := smart_weights_nonneg r j s
  have p1 : 0 ≤ (calculate_smart_score r j s).breakdown.exact_skills * 0.25 :=
    mul_nonneg h1 (by norm_num)
  have p2 : 0 ≤ (calculate_smart_score r j s).breakdown.related_skills * 0.15 :=
    mul_nonneg h2 (by norm_num)
  have p3 : 0 ≤ (calculate_smart_score r j s).breakdown.experience * 0.40 :=
    mul_nonneg h3 (by norm_num)
  have p4 : 0 ≤ (calculate_smart_score r j s).breakdown.semantic * 0.20 :=
    mul_nonneg h4 (by norm_num)
  have p5 : 0 ≤ (calculate_smart_score r j s).breakdown.education *
      (calculate_smart_score r j s).weights.education := mul_nonneg h5 h7.1
  have p6 : 0 ≤ (calculate_smart_score r j s).breakdown.projects *
      (calculate_smart_score r j s).weights.projects := mul_nonneg h6 h7.2
  linarith

/-- C1: for every resume profile (non-negative years, per the profile
    invariant), job record, and semantic score in [0,1], every component
    score in the breakdown returned by calculate_smart_score lies in [0,1],
    and final_score lies in [0,1] even when all sub-scores are at their
    maximum and both conditional weights are active (the final sum is
    clamped by min(..., 1.0)). -/
theorem C1_smart_score_bounds (r : ResumeData) (j : Job) (s : ℚ)
    (hy : 0 ≤ r.years_of_experience) (hs0 : 0 ≤ s) (hs1 : s ≤ 1) :
    (0 ≤ (calculate_smart_score r j s).breakdown.exact_skills ∧
       (calculate_smart_score r j s).breakdown.exact_skills ≤ 1) ∧
    (0 ≤ (calculate_smart_score r j s).breakdown.related_skills ∧
       (calculate_smart_score r j s).breakdown.related_skills ≤ 1) ∧
    (0 ≤ (calculate_smart_score r j s).breakdown.experience ∧
       (calculate_smart_score r j s).breakdown.experience ≤ 1) ∧
    (0 ≤ (calculate_smart_score r j s).breakdown.education ∧
       (calculate_smart_score r j s).breakdown.education ≤ 1) ∧
    (0 ≤ (calculate_smart_score r j s).breakdown.projects ∧
       (calculate_smart_score r j s).breakdown.projects ≤ 1) ∧
    (0 ≤ (calculate_smart_score r j s).breakdown.semantic ∧
       (calculate_smart_score r j s).breakdown.semantic ≤ 1) ∧
    (0 ≤ (calculate_smart_score r j s).final_score ∧
       (calculate_smart_score r j s).final_score ≤ 1) :=
  ⟨smart_exact_skills_bounds r j s,
   smart_related_skills_bounds r j s,
   smart_experience_bounds r j s hy,
   smart_education_bounds r j s,
   smart_projects_bounds r j s,
   by rw [smart_semantic_eq]; exact ⟨hs0, hs1⟩,
   smart_final_bounds r j s hy hs0⟩

/-- Witness for C1 at a concrete profile, job and semantic score. -/
theorem C1_smart_score_bounds_witness :
    0 ≤ (calculate_smart_score ⟨["Python"], "", 3, []⟩
          ⟨1, "Backend Developer", "Python SQL", "2+", "", ""⟩ (1/2)).final_score ∧
    (calculate_smart_score ⟨["Python"], "", 3, []⟩
          ⟨1, "Backend Developer", "Python SQL", "2+", "", ""⟩ (1/2)).final_score ≤ 1 :=
  (C1_smart_score_bounds ⟨["Python"], "", 3, []⟩
    ⟨1, "Backend Developer", "Python SQL", "2+", "", ""⟩ (1/2)
    (by norm_num) (by norm_num) (by norm_num)).2.2.2.2.2.2

/-- C2: calculate_smart_score computes the experience sub-score by parsing
    required years as the first integer in the job's experience string
    (default 0) and applying the ladder 0.8 / 1.0 / 0.85 / 0.65 /
    candidate divided by max(required, 1), capped at 1.0; and on the spec's
    concrete example (job "3+", requirements "Python SQL Docker", profile
    skills Python and SQL with 5 years) the experience sub-score is 1.0 and
    the exact-skills sub-score is 1.0. -/
theorem C2_experience_ladder :
    (∀ (r : ResumeData) (j : Job) (s : ℚ),
       (calculate_smart_score r j s).breakdown.experience =
         minQ (if required_years_of j = 0 then 0.8
               else if r.years_of_experience ≥ required_years_of j then 1.0
               else if r.years_of_experience ≥ required_years_of j * 0.7 then 0.85
               else if r.years_of_experience ≥ required_years_of j * 0.5 then 0.65
               else r.years_of_experience / maxQ (required_years_of j) 1) 1.0) ∧
    (calculate_smart_score ⟨["Python", "SQL"], "", 5, []⟩
       ⟨1, "Backend Developer", "Python SQL Docker", "3+", "", ""⟩ (1/2)).breakdown.experience = 1 ∧
    (calculate_smart_score ⟨["Python", "SQL"], "", 5, []⟩
       ⟨1, "Backend Developer", "Python SQL Docker", "3+", "", ""⟩ (1/2)).breakdown.exact_skills = 1 := by
  refine ⟨fun r j s => rfl, ?_, ?_⟩
  · have h : firstNat "3+" = some 3 := by decide
    have hr : required_years_of ⟨1, "Backend Developer", "Python SQL Docker", "3+", "", ""⟩ = 3 := by
      simp [required_years_of, h]
    simp only [calculate_smart_score, hr]
    norm_num [minQ]
  · have h1 : exact_matches_count ⟨["Python", "SQL"], "", 5, []⟩
        ⟨1, "Backend Developer", "Python SQL Docker", "3+", "", ""⟩ = 2 := by decide
    have h2 : total_resume_skills (⟨["Python", "SQL"], "", 5, []⟩ : ResumeData) = 2 := by decide
    simp only [calculate_smart_score, h1, h2]
    norm_num [minQ, maxQ]

theorem required_years_cases (j : Job) :
    required_years_of j = 0 ∨ 1 ≤ required_years_of j := by
  unfold required_years_of
  cases h : firstNat j.experience with
  | none => left; rfl
  | some n =>
    cases n with
    | zero => left; norm_num
    | succ m =>
      right
      have h1 : (1 : ℚ) ≤ ((m + 1 : ℕ) : ℚ) := by exact_mod_cast Nat.succ_le_succ (Nat.zero_le m)
      exact h1

/-- Monotonicity of the clamped experience ladder in the candidate years,
    for required-years values the parser can produce (0 or at least 1). -/
theorem ladder_mono {R a b : ℚ} (hR : R = 0 ∨ 1 ≤ R) (hab : a ≤ b) :
    minQ (if R = 0 then (0.8 : ℚ) else if a ≥ R then 1.0 else if a ≥ R * 0.7 then 0.85
          else if a ≥ R * 0.5 then 0.65 else a / maxQ R 1) 1.0 ≤
    minQ (if R = 0 then (0.8 : ℚ) else if b ≥ R then 1.0 else if b ≥ R * 0.7 then 0.85
          else if b ≥ R * 0.5 then 0.65 else b / maxQ R 1) 1.0 := by
  rcases hR with h0 | h1
  · simp [h0]
  · have hR0 : (0 : ℚ) < R := lt_of_lt_of_le zero_lt_one h1
    have hmax : maxQ R 1 = R := by rw [maxQ_eq]; exact max_eq_left h1
    have hne : ¬ R = 0 := ne_of_gt hR0
    rw [hmax, if_neg hne, if_neg hne, minQ_eq, minQ_eq]
    have hd2 : ∀ x : ℚ, x < R * 0.5 → x / R < 1 / 2 := by
      intro x hx
      rw [div_lt_iff₀ hR0]
      linarith
    have hdd : a / R ≤ b / R := by gcongr
    split_ifs <;>
      first
        | linarith
        | exact min_le_min
            (by first
              | (norm_num
                 done)
              | exact hdd
              | exact le_trans (hd2 a (by linarith)).le (by norm_num))
            le_rfl

/-- C8: the experience sub-score of calculate_smart_score is monotone
    non-decreasing in the candidate's years of experience, for a fixed
    job (hence fixed parsed required years). -/
theorem C8_experience_monotone (r1 r2 : ResumeData) (j : Job) (s1 s2 : ℚ)
    (h : r1.years_of_experience ≤ r2.years_of_experience) :
    (calculate_smart_score r1 j s1).breakdown.experience ≤
      (calculate_smart_score r2 j s2).breakdown.experience :=
  ladder_mono (required_years_cases j) h

/-- Witness for C8 at concrete profiles differing only in years. -/
theorem C8_experience_monotone_witness :
    (calculate_smart_score ⟨["Python"], "", 2, []⟩ ⟨1, "Dev", "Python", "4+", "", ""⟩ (1/2)).breakdown.experience ≤
      (calculate_smart_score ⟨["Python"], "", 3, []⟩ ⟨1, "Dev", "Python", "4+", "", ""⟩ (1/2)).breakdown.experience :=
  C8_experience_monotone ⟨["Python"], "", 2, []⟩ ⟨["Python"], "", 3, []⟩
    ⟨1, "Dev", "Python", "4+", "", ""⟩ (1/2) (1/2) (by norm_num)

/-- C5: when no education tier keyword is detected in the job's
    education_required text, calculate_smart_score reports education weight
    0, and the final score is unchanged under any change of the profile's
    education level (education never contributes to final_score). -/
theorem C5_education_weight_zero (r : ResumeData) (j : Job) (s : ℚ) (e : String)
    (h : required_level_of j = 0) :
    (calculate_smart_score r j s).weights.education = 0 ∧
    (calculate_smart_score { r with education_level := e } j s).final_score =
      (calculate_smart_score r j s).final_score := by
  constructor
  · simp only [calculate_smart_score, h]
    norm_num
  · have e1 : exact_matches_count { r with education_level := e } j = exact_matches_count r j := rfl
    have e2 : related_matches_count { r with education_level := e } j =
        related_matches_count r j := rfl
    have e3 : total_resume_skills { r with education_level := e } = total_resume_skills r := rfl
    simp only [calculate_smart_score, h, e1, e2, e3]
    simp

/-- Witness for C5: a job with empty education_required text. -/
theorem C5_education_weight_zero_witness :
    (calculate_smart_score ⟨["Python"], "Bachelor", 2, []⟩
      ⟨1, "Dev", "Python", "2+", "", ""⟩ (1/2)).weights.education = 0 ∧
    (calculate_smart_score { (⟨["Python"], "Bachelor", 2, []⟩ : ResumeData) with education_level := "PhD" }
      ⟨1, "Dev", "Python", "2+", "", ""⟩ (1/2)).final_score =
      (calculate_smart_score ⟨["Python"], "Bachelor", 2, []⟩
        ⟨1, "Dev", "Python", "2+", "", ""⟩ (1/2)).final_score :=
  C5_education_weight_zero ⟨["Python"], "Bachelor", 2, []⟩
    ⟨1, "Dev", "Python", "2+", "", ""⟩ (1/2) "PhD" (by decide)

/-- C6: the two scorers use different education ladders: with the candidate
    exactly one tier below the required tier, calculate_smart_score scores
    education 0.85 while calculate_detailed_breakdown scores 0.8, so the two
    functions disagree at the same input. -/
theorem C6_dual_education_ladders (r : ResumeData) (j : Job) (s : ℚ)
    (h0 : 0 < required_level_of j)
    (h1 : candidate_level_of r + 1 = required_level_of j) :
    (calculate_smart_score r j s).breakdown.education = 0.85 ∧
    (calculate_detailed_breakdown r j).education_score = 0.8 ∧
    (calculate_smart_score r j s).breakdown.education ≠
      (calculate_detailed_breakdown r j).education_score := by
  have hne : ¬ required_level_of j = 0 := by omega
  have hlt2 : ¬ required_level_of j ≤ required_level_of j - 1 := by omega
  have heq : candidate_level_of r = required_level_of j - 1 := by omega
  refine ⟨?_, ?_, ?_⟩
  · simp [calculate_smart_score, hne, heq, hlt2]
  · simp [calculate_detailed_breakdown, hne, heq, hlt2]
  · simp [calculate_smart_score, calculate_detailed_breakdown, hne, heq, hlt2]
    norm_num

/-- Witness for C6: Bachelor candidate against a Masters-requiring job. -/
theorem C6_dual_education_ladders_witness :
    (calculate_smart_score ⟨[], "Bachelor", 0, []⟩
      ⟨1, "Dev", "", "0+", "Masters", ""⟩ (1/2)).breakdown.education = 0.85 ∧
    (calculate_detailed_breakdown ⟨[], "Bachelor", 0, []⟩
      ⟨1, "Dev", "", "0+", "Masters", ""⟩).education_score = 0.8 ∧
    (calculate_smart_score ⟨[], "Bachelor", 0, []⟩
      ⟨1, "Dev", "", "0+", "Masters", ""⟩ (1/2)).breakdown.education ≠
      (calculate_detailed_breakdown ⟨[], "Bachelor", 0, []⟩
        ⟨1, "Dev", "", "0+", "Masters", ""⟩).education_score :=
  C6_dual_education_ladders ⟨[], "Bachelor", 0, []⟩
    ⟨1, "Dev", "", "0+", "Masters", ""⟩ (1/2) (by decide) (by decide)

/-- C10: calculate_detailed_breakdown's projects sub-score ignores the job's
    projects_required text entirely and equals min(count/2, 1) when projects
    were detected, 0.5 otherwise. -/
theorem C10_detailed_projects_independent (r : ResumeData) (j : Job) (pr : String) :
    (calculate_detailed_breakdown r { j with projects_required := pr }).projects_score =
      (calculate_detailed_breakdown r j).projects_score ∧
    (calculate_detailed_breakdown r j).projects_score =
      (if r.projects.isEmpty then 0.5 else minQ ((r.projects.length : ℚ) / 2.0) 1.0) := by
  constructor <;> rfl

theorem le_maxQ_left (a b : ℚ) : a ≤ maxQ a b := by
  unfold maxQ
  split_ifs with h
  · exact h
  · exact le_refl a

theorem le_maxQ_right (a b : ℚ) : b ≤ maxQ a b := by
  unfold maxQ
  split_ifs with h
  · exact le_refl b
  · exact (not_le.mp h).le

theorem foldl_maxQ_mem (y : ℚ) (ys : List ℚ) : ys.foldl maxQ y ∈ y :: ys := by
  induction ys generalizing y with
  | nil => simp
  | cons c t ih =>
    rw [List.foldl_cons]
    have h := ih (maxQ y c)
    have hm : maxQ y c = y ∨ maxQ y c = c := by
      unfold maxQ
      split_ifs <;> simp
    rcases List.mem_cons.mp h with h1 | h1
    · rcases hm with h2 | h2
      · rw [h1, h2]; exact List.mem_cons_self _ _
      · rw [h1, h2]; exact List.mem_cons_of_mem _ (List.mem_cons_self _ _)
    · exact List.mem_cons_of_mem _ (List.mem_cons_of_mem _ h1)

theorem le_foldl_maxQ_self : ∀ (t : List ℚ) (y : ℚ), y ≤ t.foldl maxQ y := by
  intro t
  induction t with
  | nil => intro y; exact le_refl y
  | cons c t ih =>
    intro y
    rw [List.foldl_cons]
    exact le_trans (le_maxQ_left y c) (ih (maxQ y c))

theorem le_foldl_maxQ {a y : ℚ} {ys : List ℚ} (h : a ∈ y :: ys) : a ≤ ys.foldl maxQ y := by
  induction ys generalizing y with
  | nil =>
    simp only [List.mem_singleton] at h
    simp [h]
  | cons c t ih =>
    rw [List.foldl_cons]
    rcases List.mem_cons.mp h with h1 | h1
    · subst h1
      exact le_trans (le_maxQ_left _ _) (le_foldl_maxQ_self t _)
    · rcases List.mem_cons.mp h1 with h2 | h2
      · subst h2
        exact le_trans (le_maxQ_right _ _) (le_foldl_maxQ_self t _)
      · exact ih (List.mem_cons_of_mem _ h2)

theorem years_found_nonneg (text : String)
    (hd : ∀ p ∈ date_range_matches text, p.1 ≤ p.2) :
    ∀ y ∈ years_found text, 0 ≤ y := by
  intro y hy
  unfold years_found at hy
  rcases List.mem_append.mp hy with h | h
  · obtain ⟨n, hn, he⟩ := List.mem_map.mp h
    rw [← he]
    exact Nat.cast_nonneg n
  · obtain ⟨p, hp, he⟩ := List.mem_map.mp h
    subst he
    have h1 := hd p hp
    simp only [sub_nonneg]
    exact_mod_cast h1

/-- C3 counterexample: on the reversed date range "2023-2018" the code
    appends 2018 - 2023 = -5 as a duration and returns it, so the extracted
    years of experience are negative. -/
theorem C3_negative_years_counterexample :
    extract_years_of_experience "2023-2018" = -5 ∧
    ¬ (0 ≤ extract_years_of_experience "2023-2018") := by
  have h : date_range_matches "2023-2018" = [(2023, 2018)] := by decide
  have h2 : experience_phrase_matches "2023-2018" = [] := by decide
  have key : extract_years_of_experience "2023-2018" = -5 := by
    simp only [extract_years_of_experience, years_found, h, h2, List.map_nil, List.map_cons,
      List.nil_append]
    norm_num
  exact ⟨key, by rw [key]; norm_num⟩

/-- C3 amended: extract_years_of_experience returns exactly 2.0 when no
    pattern matches, otherwise the maximum over all values found from the
    explicit-phrase patterns and the date ranges (present resolving to the
    fixed reference year 2024); the result is non-negative whenever every
    matched date range is non-reversed (end year at least start year) —
    but not for every input text. -/
theorem C3_years_amended (text : String) :
    (years_found text = [] → extract_years_of_experience text = 2) ∧
    (years_found text ≠ [] → extract_years_of_experience text ∈ years_found text) ∧
    (∀ y ∈ years_found text, y ≤ extract_years_of_experience text) ∧
    ((∀ p ∈ date_range_matches text, p.1 ≤ p.2) → 0 ≤ extract_years_of_experience text) := by
  have hempty : years_found text = [] → extract_years_of_experience text = 2 := by
    intro h
    simp [extract_years_of_experience, h]
    norm_num
  have hmem : years_found text ≠ [] → extract_years_of_experience text ∈ years_found text := by
    intro h
    unfold extract_years_of_experience
    cases hys : years_found text with
    | nil => exact absurd hys h
    | cons z zs => exact foldl_maxQ_mem z zs
  have hub : ∀ y ∈ years_found text, y ≤ extract_years_of_experience text := by
    intro y hy
    unfold extract_years_of_experience
    cases hys : years_found text with
    | nil => rw [hys] at hy; simp at hy
    | cons z zs =>
      rw [hys] at hy
      exact le_foldl_maxQ hy
  refine ⟨hempty, hmem, hub, ?_⟩
  intro hd
  by_cases h : years_found text = []
  · rw [hempty h]; norm_num
  · exact years_found_nonneg text hd _ (hmem h)

/-- Witness for C3 (amended): a text whose only signal is a phrase match. -/
theorem C3_years_amended_witness :
    0 ≤ extract_years_of_experience "3 years experience" :=
  (C3_years_amended "3 years experience").2.2.2 (by decide)

theorem dedupCI_sublist (seen : List String) (l : List String) :
    (dedupCI seen l).Sublist l := by
  induction l generalizing seen with
  | nil => simp [dedupCI]
  | cons s rest ih =>
    simp only [dedupCI]
    split_ifs with h
    · exact (ih seen).trans (List.sublist_cons_self s rest)
    · exact (ih _).cons₂ s

theorem mem_dedupCI_not_seen : ∀ (l seen : List String) (a : String),
    a ∈ dedupCI seen l → lowerS a ∉ seen := by
  intro l
  induction l with
  | nil =>
    intro seen a h
    simp [dedupCI] at h
  | cons s rest ih =>
    intro seen a h
    simp only [dedupCI] at h
    split_ifs at h with hc
    · exact ih seen a h
    · rcases List.mem_cons.mp h with h1 | h1
      · subst h1
        intro hmem
        exact hc (by simpa using hmem)
      · intro hmem
        exact ih _ _ h1 (List.mem_cons_of_mem _ hmem)

theorem dedupCI_pairwise : ∀ (l seen : List String),
    (dedupCI seen l).Pairwise (fun a b => lowerS a ≠ lowerS b) := by
  intro l
  induction l with
  | nil => intro seen; simp [dedupCI]
  | cons s rest ih =>
    intro seen
    simp only [dedupCI]
    split_ifs with hc
    · exact ih seen
    · refine List.Pairwise.cons ?_ (ih _)
      intro b hb heq
      exact mem_dedupCI_not_seen rest _ b hb (heq ▸ List.mem_cons_self _ _)

theorem mem_dedupCI_of_nodup : ∀ (l seen : List String) (s : String),
    (l.map lowerS).Nodup → s ∈ l → lowerS s ∉ seen → s ∈ dedupCI seen l := by
  intro l
  induction l with
  | nil =>
    intro seen s _ h _
    simp at h
  | cons hd rest ih =>
    intro seen s hnd hmem hns
    have hndtail : (rest.map lowerS).Nodup := (List.nodup_cons.mp (by simpa using hnd)).2
    simp only [dedupCI]
    rcases List.mem_cons.mp hmem with h1 | h1
    · subst h1
      split_ifs with hc
      · exact absurd (by simpa using hc) hns
      · exact List.mem_cons_self _ _
    · have hne : lowerS s ≠ lowerS hd := by
        have hnotin : lowerS hd ∉ rest.map lowerS := (List.nodup_cons.mp (by simpa using hnd)).1
        intro he
        exact hnotin (he ▸ List.mem_map_of_mem lowerS h1)
      split_ifs with hc
      · exact ih seen s hndtail h1 hns
      · refine List.mem_cons_of_mem _ (ih _ s hndtail h1 ?_)
        intro hm
        rcases List.mem_cons.mp hm with h2 | h2
        · exact hne h2
        · exact hns h2

set_option maxRecDepth 4000 in
/-- The lowercased skill vocabulary has no case-insensitive duplicates. -/
theorem skill_keywords_lower_nodup : (skill_keywords.map lowerS).Nodup := by decide

/-- C9: extract_skills matches vocabulary terms with the code's
    word-boundary test on lowercased text, returns a sublist of the
    vocabulary (vocabulary order, vocabulary casing), never returns two
    entries equal up to lowercasing, and any vocabulary skill whose
    word-boundary pattern occurs in the text appears in the result. -/
theorem C9_extract_skills (text : String) :
    (extract_skills text).Pairwise (fun a b => lowerS a ≠ lowerS b) ∧
    (extract_skills text).Sublist skill_keywords ∧
    (∀ skill ∈ skill_keywords,
       wbSearch (skill.data.map lowChar) (text.data.map lowChar) = true →
         skill ∈ extract_skills text) := by
  refine ⟨dedupCI_pairwise _ _, (dedupCI_sublist _ _).trans (List.filter_sublist _), ?_⟩
  intro skill hs hw
  have hmem : skill ∈ skill_keywords.filter (fun sk =>
      wbSearch (sk.data.map lowChar) (text.data.map lowChar)) :=
    List.mem_filter.mpr ⟨hs, hw⟩
  have hnd : ((skill_keywords.filter (fun sk =>
      wbSearch (sk.data.map lowChar) (text.data.map lowChar))).map lowerS).Nodup :=
    skill_keywords_lower_nodup.sublist ((List.filter_sublist _).map lowerS)
  exact mem_dedupCI_of_nodup _ [] skill hnd hmem (by simp)

/-- Witness for C9: "Python" and "python" in one text yield the single
    vocabulary entry "Python". -/
theorem C9_extract_skills_witness :
    "Python" ∈ extract_skills "I use Python and python daily" :=
  (C9_extract_skills "I use Python and python daily").2.2 "Python" (by decide) (by decide)

/-- C7: find_matching_jobs fails with the "index not ready" error exactly
    when the index is unbuilt or the stored job list is empty, and returns
    a result list in every other case. -/
theorem C7_find_matching_jobs_not_ready (m : JobMatcher) (p : QueryProfile) (k : Nat) :
    ((find_matching_jobs m p k =
        .error "Index not built. Call build_job_index() first.") ↔
      (m.index = none ∨ m.jobs = [])) ∧
    ((∃ l, find_matching_jobs m p k = .ok l) ↔ ¬ (m.index = none ∨ m.jobs = [])) := by
  rcases hm : m.index with _ | search
  · simp [find_matching_jobs, hm]
  · rcases hj : m.jobs with _ | ⟨j0, js⟩
    · simp [find_matching_jobs, hm, hj]
    · simp [find_matching_jobs, hm, hj]

/-- C4: the match pipeline scores exactly the role-filtered jobs, gives
    semantic score 0.5 to a filtered job absent from the semantic results,
    returns the list sorted descending by final score, and returns an empty
    list (not an error) when no job passes the role filter. -/
theorem C4_match_pipeline (jobs : List Job) (roles : List String)
    (r : ResumeData) (ml : List (Nat × ℚ)) :
    ((show_job_results jobs roles r ml).map Prod.fst).Perm
        (jobs.filter (titleMatchesRoles roles)) ∧
    (∀ j, j ∈ jobs → titleMatchesRoles roles j = true →
       (∀ q ∈ ml, q.1 ≠ j.id) →
       (j, (calculate_smart_score r j 0.5).final_score) ∈ show_job_results jobs roles r ml) ∧
    (show_job_results jobs roles r ml).Pairwise (fun a b => b.2 ≤ a.2) ∧
    ((∀ j ∈ jobs, titleMatchesRoles roles j = false) →
       show_job_results jobs roles r ml = []) := by
  have hperm : (show_job_results jobs roles r ml).Perm
      ((jobs.filter (titleMatchesRoles roles)).map (fun job =>
        (job, (calculate_smart_score r job (semantic_score_for ml job)).final_score))) := by
    unfold show_job_results
    exact List.mergeSort_perm _ _
  refine ⟨?_, ?_, ?_, ?_⟩
  · have h1 := hperm.map Prod.fst
    have h2 : ((jobs.filter (titleMatchesRoles roles)).map (fun job =>
        (job, (calculate_smart_score r job (semantic_score_for ml job)).final_score))).map
          Prod.fst = jobs.filter (titleMatchesRoles roles) := by
      rw [List.map_map]
      have hid : (Prod.fst ∘ fun job : Job =>
          (job, (calculate_smart_score r job (semantic_score_for ml job)).final_score)) = id := rfl
      rw [hid, List.map_id]
    rw [h2] at h1
    exact h1
  · intro j hj ht hml
    have hfind : ml.find? (fun q => q.1 == j.id) = none :=
      List.find?_eq_none.mpr (fun x hx => by simpa using hml x hx)
    have hsem : semantic_score_for ml j = 0.5 := by
      unfold semantic_score_for
      rw [hfind]
    have hmem : (j, (calculate_smart_score r j 0.5).final_score) ∈
        (jobs.filter (titleMatchesRoles roles)).map (fun job =>
          (job, (calculate_smart_score r job (semantic_score_for ml job)).final_score)) := by
      refine List.mem_map.mpr ⟨j, List.mem_filter.mpr ⟨hj, ht⟩, ?_⟩
      rw [hsem]
    exact hperm.mem_iff.mpr hmem
  · unfold show_job_results
    refine List.Pairwise.imp ?_ (List.sorted_mergeSort ?_ ?_ _)
    · intro a b h
      exact of_decide_eq_true h
    · intro a b c hab hbc
      exact decide_eq_true (le_trans (of_decide_eq_true hbc) (of_decide_eq_true hab))
    · intro a b
      rcases le_total b.2 a.2 with h | h <;> simp [h]
  · intro hnone
    have hf : jobs.filter (titleMatchesRoles roles) = [] := by
      rw [List.filter_eq_nil_iff]
      intro a ha
      simp [hnone a ha]
    unfold show_job_results
    rw [hf]
    simp

/-- Witness for C4: one matching job, no semantic results, so the job is
    scored with the 0.5 default and appears in the output. -/
theorem C4_match_pipeline_witness :
    ((⟨1, "Backend Developer", "Python", "2+", "", ""⟩ : Job),
      (calculate_smart_score ⟨["Python"], "", 3, []⟩
        ⟨1, "Backend Developer", "Python", "2+", "", ""⟩ 0.5).final_score) ∈
      show_job_results [⟨1, "Backend Developer", "Python", "2+", "", ""⟩]
        ["backend"] ⟨["Python"], "", 3, []⟩ [] :=
  (C4_match_pipeline [⟨1, "Backend Developer", "Python", "2+", "", ""⟩]
      ["backend"] ⟨["Python"], "", 3, []⟩ []).2.1
    ⟨1, "Backend Developer", "Python", "2+", "", ""⟩ (by simp) (by decide) (by simp)

end ResumeOpt
